import Mathlib

/-
Verification of the JCPS zone-resolution engine (src/app/api.py) against its
natural-language specification.  The resolution pipeline
`find_school_zones_and_details` and the helper functions it calls are embedded
shallowly: SQLite tables become ordered lists of records, pandas GeoDataFrame
rows become zone records carrying a containment predicate, Python dicts become
association lists preserving insertion order, nullable values become Option,
Python exceptions become Except, and string truthiness is modelled explicitly.
Field and function names follow the source.  Latitude, longitude and distances
are modelled as rationals; the composite
`round(geodesic((lat, lon), (slat, slon)).miles, 1)` of api.py line 487 is an
abstract function `geo` carried in the environment, since only its call
structure (never its numeric value) matters to the properties checked here.
-/

/-- Whitespace test for the embedded `str.strip()`. -/
def isWS (c : Char) : Bool :=
  decide (c = ' ') || decide (c = '\t') || decide (c = '\n') || decide (c = '\r')

/-- Removal of leading whitespace characters. -/
def trimLeftChars : List Char → List Char
  | [] => []
  | c :: t => if isWS c then trimLeftChars t else c :: t

/-- Embedding of Python `str.strip()` (structural recursion on the
character list, so that concrete runs reduce). -/
def strTrim (s : String) : String :=
  String.mk (trimLeftChars (trimLeftChars s.data.reverse).reverse)

/-- Embedding of Python `str.upper()`. -/
def strUpper (s : String) : String := String.mk (s.data.map Char.toUpper)

/-- Prefix test on character lists. -/
def hasPrefixChars : List Char → List Char → Bool
  | _, [] => true
  | [], _ :: _ => false
  | c :: t, p :: pt => decide (c = p) && hasPrefixChars t pt

/-- Substring occurrence test on character lists. -/
def hasSubstringChars : List Char → List Char → Bool
  | [], sub => hasPrefixChars [] sub
  | c :: t, sub => hasPrefixChars (c :: t) sub || hasSubstringChars t sub

/-- Python truthiness of a nullable string: None and the empty string are
falsy, every other string is truthy. -/
def pyTruthy : Option String → Bool
  | none => false
  | some s => !(s = "")

/-- Python substring test `sub in s`, used by api.py lines 439-440
(`"High" in zone_type`). -/
def strContains (s sub : String) : Bool := hasSubstringChars s.data sub.data

/-- Python dict lookup `d.get(key)` over an insertion-ordered association
list. -/
def dictGet {α : Type} : List (String × α) → String → Option α
  | [], _ => none
  | (k, v) :: t, key => if k = key then some v else dictGet t key

/-- One row of the `schools` SQLite table (the School Catalog).  Only the
columns the resolution engine reads are embedded; nullable columns are
Option.  `school_code_adjusted` and `display_name` are kept as plain strings
(a NULL code is represented by the empty string, which is exactly how the
code treats it: every consumer guards with Python truthiness). -/
structure SchoolRecord where
  school_code_adjusted : String
  display_name : String
  school_level : Option String
  network : Option String
  gis_name : Option String
  feeder_to_high_school : Option String
  school_zone : Option String
  latitude : Option ℚ
  longitude : Option ℚ
  universal_magnet_traditional_school : Option String
  universal_magnet_traditional_program : Option String
  the_academies_of_louisville : Option String
  districtwide_pathways : Option String
  choice_zone : Option String
  magnet_programs : Option String
  districtwide_pathways_programs : Option String
  the_academies_of_louisville_programs : Option String
deriving DecidableEq

/-- Result of `get_info_from_gis` (api.py lines 193-224): the dict
`{sca, display_name}`. -/
structure GisInfo where
  sca : Option String
  display_name : Option String
deriving DecidableEq

/-- Whether a catalog row matches a GIS lookup: `gis_name = lookup_key`
with an optional `school_level` restriction (the SQL of api.py lines
207-212). -/
def gisMatches (lookup_key : String) (hint : Option String) (r : SchoolRecord) : Bool :=
  decide (r.gis_name = some lookup_key) &&
    (match hint with
     | none => true
     | some h => decide (r.school_level = some h))

/-- Embedding of `get_info_from_gis(gis_name_key, school_level_hint)`
(api.py lines 193-224).  A falsy key returns the empty info; otherwise the
key is trimmed and upper-cased and the first matching table row (in table
order, `cursor.fetchone()`) supplies `sca` and `display_name`. -/
def get_info_from_gis (db : List SchoolRecord) (gis_name_key : Option String)
    (school_level_hint : Option String) : GisInfo :=
  if pyTruthy gis_name_key then
    let lookup_key := strUpper (strTrim (gis_name_key.getD ""))
    match (db.filter (gisMatches lookup_key school_level_hint)).head? with
    | none => ⟨none, none⟩
    | some r => ⟨some r.school_code_adjusted, some r.display_name⟩
  else ⟨none, none⟩

/-- Embedding of `get_elementary_feeder_scas(high_school_gis_key)` (api.py
lines 226-236): resolve the high school display name via the GIS key, then
collect the codes of all Elementary-level rows whose
`feeder_to_high_school` equals it, keeping only truthy codes. -/
def get_elementary_feeder_scas (db : List SchoolRecord) (high_school_gis_key : Option String) :
    List String :=
  let hs_info := get_info_from_gis db high_school_gis_key none
  match hs_info.display_name with
  | none => []
  | some n =>
    if n = "" then []
    else
      ((db.filter (fun r =>
          decide (r.feeder_to_high_school = some n ∧ r.school_level = some "Elementary School"))).map
        (fun r => r.school_code_adjusted)).filter (fun c => !(c = ""))

/-- Row shape returned by `get_address_independent_schools_info` (api.py
lines 241-281).  The SELECT list contains only `school_code_adjusted`,
`display_name`, `school_level`, `network`, `districtwide_pathways_programs`
and the four flag columns, so these are the only keys present in the
returned dicts. -/
structure AddrIndepInfo where
  school_code_adjusted : String
  display_name : String
  school_level : Option String
  network : Option String
  districtwide_pathways_programs : Option String
  universal_magnet_traditional_school : Option String
  universal_magnet_traditional_program : Option String
  the_academies_of_louisville : Option String
  districtwide_pathways : Option String
deriving DecidableEq

/-- Dict access `school_info.get('choice_zone')` on a row of
`get_address_independent_schools_info` (api.py line 470): the SELECT column
list of that query omits `choice_zone`, so the key is absent from the dict
and `.get` always returns None. -/
def AddrIndepInfo.choice_zone_get (_ : AddrIndepInfo) : Option String := none

/-- Projection of a catalog row onto the columns selected by
`get_address_independent_schools_info`. -/
def toAddrIndep (r : SchoolRecord) : AddrIndepInfo :=
  ⟨r.school_code_adjusted, r.display_name, r.school_level, r.network,
   r.districtwide_pathways_programs, r.universal_magnet_traditional_school,
   r.universal_magnet_traditional_program, r.the_academies_of_louisville,
   r.districtwide_pathways⟩

/-- Embedding of `get_address_independent_schools_info()` (api.py lines
241-281): every table row with at least one of the four flag columns equal
to "Yes", in table order, projected onto the selected columns. -/
def get_address_independent_schools_info (db : List SchoolRecord) : List AddrIndepInfo :=
  (db.filter (fun r =>
      decide (r.universal_magnet_traditional_school = some "Yes" ∨
        r.universal_magnet_traditional_program = some "Yes" ∨
        r.the_academies_of_louisville = some "Yes" ∨
        r.districtwide_pathways = some "Yes"))).map toAddrIndep

/-- Embedding of `get_school_details_by_scas([...]).get(sca)` (api.py lines
284-335) for a single code: the function strips each requested code, keys
the returned map by the `school_code_adjusted` column value, and is then
read back with the unstripped code — so the lookup succeeds only for an
already-stripped truthy code, and yields the last table row carrying it
(later rows overwrite earlier ones in the `details_map` loop). -/
def school_details_get (db : List SchoolRecord) (sca : String) : Option SchoolRecord :=
  if pyTruthy (some sca) ∧ strTrim sca = sca then
    (db.filter (fun r => decide (r.school_code_adjusted = strTrim sca))).getLast?
  else none

/-- Attribute columns of a matched zone row that the engine reads
(`row.get("High")`, `row.get("Middle")`, `row.get("MST")`,
`row.get("Traditiona")`).  `zone_type` is always present: the loader tags
every row (api.py line 110).  A pandas NaN attribute is modelled as none;
`str(...)` of it never matches any catalog gis_name, just as here. -/
structure ZoneRow where
  zone_type : String
  high : Option String
  middle : Option String
  mst : Option String
  traditiona : Option String
deriving DecidableEq

/-- Dynamic column access `row.get(zone_type)` for the Reside layers
(api.py line 444), where `zone_type` is "High" or "Middle". -/
def ZoneRow.getCol (r : ZoneRow) (k : String) : Option String :=
  if k = "High" then r.high
  else if k = "Middle" then r.middle
  else if k = "MST" then r.mst
  else if k = "Traditiona" then r.traditiona
  else none

/-- Conversion `str(row.get(col, "")).strip().upper()` applied to every raw
GIS attribute before lookup (api.py lines 416, 442, 444, 447, 448). -/
def colKey (v : Option String) : String := strUpper (strTrim (v.getD ""))

/-- One record of the Zone Geometry Store: a polygon membership test
together with its attribute row.  `contains lon lat` embeds
`row.geometry.contains(Point(lon, lat))` (api.py lines 405-406). -/
structure Zone where
  contains : ℚ → ℚ → Bool
  row : ZoneRow

/-- Environment of one resolution: the loaded zone layers (in concatenated
shapefile order), the schools table (in table order), the three JSON
override tables keyed by reside-zone name, and the great-circle distance
function `geo qlat qlon slat slon` standing for
`round(geodesic((lat, lon), (slat, slon)).miles, 1)`. -/
structure Env where
  zones : List Zone
  db : List SchoolRecord
  satellite_data : List (String × List (Option String))
  zone_specific_magnets_data : List (String × List (Option String))
  choice_zone_elementary : List (String × List (Option String))
  choice_zone_middle : List (String × List (Option String))
  geo : ℚ → ℚ → ℚ → ℚ → ℚ

/-- Value of one `final_schools_map` slot: the candidate category
(`zone_type`) and status kept so far (api.py lines 433-434). -/
structure MapEntry where
  zone_type : String
  status : String
deriving DecidableEq

/-- The deduplication map `final_schools_map`, keyed by school code; an
insertion-ordered association list mirroring a Python dict. -/
abbrev FinalMap := List (String × MapEntry)

/-- The literal dict `current_priority` of api.py line 430.  Statuses not
present in the dict — notably "Academies of Louisville", the label actually
assigned at line 473 — get the `.get(status, 0)` default 0. -/
def statusPriority (s : String) : Nat :=
  if s = "Academy Choice" then 1
  else if s = "Magnet/Choice Program" then 2
  else if s = "Satellite School" then 3
  else if s = "Reside" then 4
  else 0

/-- Writing `final_schools_map[sca] = entry` on a Python dict: an existing
key keeps its position and is overwritten, a new key is appended. -/
def updateEntry : FinalMap → String → MapEntry → FinalMap
  | [], k, e => [(k, e)]
  | (k', e') :: t, k, e =>
    if k' = k then (k, e) :: t else (k', e') :: updateEntry t k e

/-- Embedding of the merger `add_school(sca, zone_type, status)` (api.py
lines 428-434): skip falsy codes; overwrite the stored entry whenever
`current_priority.get(status, 0) >= current_priority.get(existing, 0)`,
where a missing entry reads as existing status "". -/
def add_school (m : FinalMap) (sca : Option String) (zone_type status : String) : FinalMap :=
  if pyTruthy sca then
    let s := sca.getD ""
    let existing_status := match dictGet m s with
      | some e => e.status
      | none => ""
    if statusPriority status ≥ statusPriority existing_status then
      updateEntry m s ⟨zone_type, status⟩
    else m
  else m

/-- Embedding of the user-context loop (api.py lines 414-425): scan the
matched zones for a "High" row; a High row with a falsy key does not break,
so the first High row with a truthy key decides; its GIS key is resolved
with hint "High School" and, when details are found, supplies
`(user_reside_high_school_zone_name, user_network)`; every failure leaves
both None. -/
def find_user_context (db : List SchoolRecord) (matched : List Zone) :
    Option String × Option String :=
  match matched.find? (fun z =>
      decide (z.row.zone_type = "High") && pyTruthy (some (colKey z.row.high))) with
  | none => (none, none)
  | some z =>
    let hs_info := get_info_from_gis db (some (colKey z.row.high)) (some "High School")
    match hs_info.sca with
    | none => (none, none)
    | some c =>
      if c = "" then (none, none)
      else
        match school_details_get db c with
        | none => (none, none)
        | some d => (d.school_zone, d.network)

/-- Per-zone body of the GIS loop (api.py lines 437-452): Elementary
clusters add every feeder elementary with status Reside; High and Middle
Reside layers resolve their own column with the matching level hint, status
Reside; the MST layer is renamed "Traditional/Magnet Middle" and the
Traditional layers read the "Traditiona" column, status
"Magnet/Choice Program"; the Choice layer adds nothing. -/
def gis_step (db : List SchoolRecord) (m : FinalMap) (z : Zone) : FinalMap :=
  let zone_type := z.row.zone_type
  let level_hint : Option String :=
    if strContains zone_type "High" then some "High School"
    else if strContains zone_type "Middle" then some "Middle School"
    else none
  if zone_type = "Elementary" then
    (get_elementary_feeder_scas db (some (colKey z.row.high))).foldl
      (fun m' sca => add_school m' (some sca) "Elementary" "Reside") m
  else if zone_type = "High" ∨ zone_type = "Middle" then
    let gis_key := colKey (z.row.getCol zone_type)
    if pyTruthy (some gis_key) then
      add_school m (get_info_from_gis db (some gis_key) level_hint).sca zone_type "Reside"
    else m
  else if zone_type = "MST Magnet Middle" then
    let gis_key := colKey z.row.mst
    if pyTruthy (some gis_key) then
      add_school m (get_info_from_gis db (some gis_key) level_hint).sca
        "Traditional/Magnet Middle" "Magnet/Choice Program"
    else m
  else if zone_type = "Traditional/Magnet High" ∨ zone_type = "Traditional/Magnet Middle" ∨
      zone_type = "Traditional/Magnet Elementary" then
    let gis_key := colKey z.row.traditiona
    if pyTruthy (some gis_key) then
      add_school m (get_info_from_gis db (some gis_key) level_hint).sca
        zone_type "Magnet/Choice Program"
    else m
  else m

/-- Embedding of the JSON-table section (api.py lines 455-461): satellite
and zone-specific-magnet entries fire on a truthy reside-zone name present
in their table; choice-zone options fire when the point is in the Choice
polygon and the (possibly empty) name is a key of the table. -/
def json_steps (env : Env) (uname : Option String) (is_in_choice_zone : Bool)
    (m : FinalMap) : FinalMap :=
  let m1 :=
    if pyTruthy uname then
      match dictGet env.satellite_data (uname.getD "") with
      | some lst => lst.foldl (fun m' sc =>
          add_school m' sc "Traditional/Magnet Elementary" "Satellite School") m
      | none => m
    else m
  let m2 :=
    if pyTruthy uname then
      match dictGet env.zone_specific_magnets_data (uname.getD "") with
      | some lst => lst.foldl (fun m' sc =>
          add_school m' sc "Traditional/Magnet Elementary" "Magnet/Choice Program") m1
      | none => m1
    else m1
  if is_in_choice_zone then
    match uname with
    | none => m2
    | some n =>
      match dictGet env.choice_zone_elementary n, dictGet env.choice_zone_middle n with
      | some el, some mi =>
        let m3 := el.foldl (fun m' sc => add_school m' sc "Elementary" "Reside") m2
        mi.foldl (fun m' sc => add_school m' sc "Middle" "Reside") m3
      | some el, none => el.foldl (fun m' sc => add_school m' sc "Elementary" "Reside") m2
      | none, some mi => mi.foldl (fun m' sc => add_school m' sc "Middle" "Reside") m2
      | none, none => m2
  else m2

/-- Embedding of the flag-driven eligibility decision (api.py lines
466-474), applied to each row of the universal-inclusion query:
districtwide pathways first, then the network-gated academies rule (plain
Python equality between `record.network` and the home network, so None
matches None), then the universal magnet flags (whose `choice_zone` reading
is always None because the column is not selected); no match gives no
status. -/
def eligibility_status (user_network : Option String) (s : AddrIndepInfo) : Option String :=
  let is_districtwide_pathway := s.districtwide_pathways = some "Yes"
  let is_universal_magnet := s.universal_magnet_traditional_school = some "Yes" ∨
    s.universal_magnet_traditional_program = some "Yes" ∨ s.choice_zone_get = some "Yes"
  let is_academy_choice := s.the_academies_of_louisville = some "Yes" ∧ s.network = user_network
  if is_districtwide_pathway then some "Magnet/Choice Program"
  else if is_academy_choice then some "Academies of Louisville"
  else if is_universal_magnet then some "Magnet/Choice Program"
  else none

/-- Category assigned to a flag-included school from its school_level
(api.py line 476); an unrecognised level yields None and the school is not
added. -/
def level_zone_type : Option String → Option String
  | some "Elementary School" => some "Traditional/Magnet Elementary"
  | some "Middle School" => some "Traditional/Magnet Middle"
  | some "High School" => some "Traditional/Magnet High"
  | _ => none

/-- Per-record body of the flag-driven loop (api.py lines 465-477). -/
def flag_step (user_network : Option String) (m : FinalMap) (s : AddrIndepInfo) : FinalMap :=
  match eligibility_status user_network s with
  | none => m
  | some st =>
    match level_zone_type s.school_level with
    | some zt => add_school m (some s.school_code_adjusted) zt st
    | none => m

/-- Embedding of the distance expression of api.py line 487:
`round(geodesic((lat, lon), (latitude, longitude)).miles, 1) if
details.get('latitude') else None`.  Only latitude is truthiness-guarded
(None or 0 gives a null distance); a truthy latitude with a missing
longitude makes `geodesic` raise, modelled as an Except error. -/
def compute_distance_mi (geo : ℚ → ℚ → ℚ → ℚ → ℚ) (lat lon : ℚ) (d : SchoolRecord) :
    Except Unit (Option ℚ) :=
  match d.latitude with
  | none => .ok none
  | some la =>
    if la = 0 then .ok none
    else
      match d.longitude with
      | none => .error ()
      | some lo => .ok (some (geo lat lon la lo))

/-- Program annotations attached to a final entry (api.py lines 491-502):
`(display_program_type, display_programs)`. -/
def program_fields (d : SchoolRecord) (display_status : String) : Option String × Option String :=
  if display_status = "Magnet/Choice Program" then
    if d.districtwide_pathways = some "Yes" ∧ pyTruthy d.districtwide_pathways_programs then
      (some "Districtwide Pathway", d.districtwide_pathways_programs)
    else if pyTruthy d.magnet_programs then (some "Magnet", d.magnet_programs)
    else (none, none)
  else if display_status = "Academies of Louisville" ∨
      (display_status = "Reside" ∧ pyTruthy d.the_academies_of_louisville_programs) then
    (some "Academies of Louisville", d.the_academies_of_louisville_programs)
  else (none, none)

/-- Category re-derivation of api.py lines 505-510: `final_zone_type`
starts as the candidate category; only status Reside with a recognised
school_level replaces it by the plain level category. -/
def final_zone_type_of (info : MapEntry) (d : SchoolRecord) : String :=
  if info.status = "Reside" then
    match d.school_level with
    | some "Elementary School" => "Elementary"
    | some "Middle School" => "Middle"
    | some "High School" => "High"
    | _ => info.zone_type
  else info.zone_type

/-- One final entry as emitted (the hydrated details dict plus the display
fields added at api.py lines 486-502). -/
structure OutSchool where
  details : SchoolRecord
  display_status : String
  distance_mi : Option ℚ
  display_program_type : Option String
  display_programs : Option String
deriving DecidableEq

/-- Processing of one `final_schools_map` item in the assembly loop (api.py
lines 483-511): hydrate the code (a missing record drops the entry), attach
status, distance and program annotations, and compute the category the
entry is grouped under. -/
def process_entry (env : Env) (lat lon : ℚ) (kv : String × MapEntry) :
    Except Unit (Option (String × OutSchool)) :=
  match school_details_get env.db kv.1 with
  | none => .ok none
  | some d =>
    match compute_distance_mi env.geo lat lon d with
    | .error e => .error e
    | .ok dist =>
      let pf := program_fields d kv.2.status
      .ok (some (final_zone_type_of kv.2 d, ⟨d, kv.2.status, dist, pf.1, pf.2⟩))

/-- The assembly loop over `final_schools_map.items()` in insertion order;
an exception raised on any entry aborts the whole resolution. -/
def processItems (env : Env) (lat lon : ℚ) :
    List (String × MapEntry) → Except Unit (List (String × OutSchool))
  | [] => .ok []
  | kv :: t =>
    match process_entry env lat lon kv with
    | .error e => .error e
    | .ok none => processItems env lat lon t
    | .ok (some p) =>
      match processItems env lat lon t with
      | .error e => .error e
      | .ok ps => .ok (p :: ps)

/-- Sort key comparison of api.py line 518: stable sort by
`(distance_mi is None, distance_mi or +inf)`, i.e. null distances last,
otherwise ascending distance, equal keys keeping list order. -/
def distLE (a b : OutSchool) : Bool :=
  match a.distance_mi, b.distance_mi with
  | none, none => true
  | none, some _ => false
  | some _, none => true
  | some x, some y => decide (x ≤ y)

/-- Stable insertion of an element after all elements less-or-equal to it. -/
def stableInsert {α : Type} (le : α → α → Bool) (a : α) : List α → List α
  | [] => [a]
  | b :: t => if le b a then b :: stableInsert le a t else a :: b :: t

/-- Stable sort by a Boolean total preorder (structural recursion).  Python
`list.sort` is stable, and a stable sort with respect to a total preorder
is unique, so this is the same function as the Timsort call of api.py line
518. -/
def stableSort {α : Type} (le : α → α → Bool) (l : List α) : List α :=
  l.foldl (fun s a => stableInsert le a s) []

/-- Stable in-place sort `schools.sort(key=...)` of api.py line 518. -/
def sortSchools (l : List OutSchool) : List OutSchool := stableSort distLE l

/-- One emitted category block. -/
structure ZoneResult where
  zone_type : String
  schools : List OutSchool
deriving DecidableEq

/-- The `output_structure` dict (api.py line 513). -/
structure Output where
  results_by_zone : List ZoneResult
deriving DecidableEq

/-- The fixed emission order of api.py line 514. -/
def category_order : List String :=
  ["Elementary", "Middle", "High", "Traditional/Magnet Elementary",
   "Traditional/Magnet Middle", "Traditional/Magnet High"]

/-- The fully merged `final_schools_map` after the GIS loop (api.py lines
437-452), the JSON-table section (455-461) and the flag-driven loop
(464-477), in insertion order. -/
def mergedMap (env : Env) (lat lon : ℚ) : FinalMap :=
  let matched := env.zones.filter (fun z => z.contains lon lat)
  let is_in_choice_zone := matched.any (fun z => decide (z.row.zone_type = "Choice"))
  let uc := find_user_context env.db matched
  let m1 := matched.foldl (gis_step env.db) []
  let m2 := json_steps env uc.1 is_in_choice_zone m1
  (get_address_independent_schools_info env.db).foldl (flag_step uc.2) m2

/-- The `output_structure` emission loop (api.py lines 513-519): for each
category of `category_order`, in that fixed order, the bucket of processed
entries grouped under it, sorted; empty buckets are omitted. -/
def assemble (entries : List (String × OutSchool)) : List ZoneResult :=
  category_order.filterMap (fun zt =>
    let bucket := entries.filter (fun e => decide (e.1 = zt))
    if bucket.isEmpty then none
    else some ⟨zt, sortSchools (bucket.map (fun e => e.2))⟩)

/-- Embedding of `find_school_zones_and_details(lat, lon, gdf, sort_key,
sort_desc)` (api.py lines 402-520) for given coordinates.  `sort_key` and
`sort_desc` are accepted and, exactly as in the source, never read.  The
result is the pair `(output_structure, is_in_choice_zone)`, or an error
when the assembly loop raises. -/
def find_school_zones_and_details (env : Env) (lat lon : ℚ)
    (sort_key : Option String) (sort_desc : Bool) : Except Unit (Output × Bool) :=
  let is_in_choice_zone :=
    (env.zones.filter (fun z => z.contains lon lat)).any
      (fun z => decide (z.row.zone_type = "Choice"))
  match processItems env lat lon (mergedMap env lat lon) with
  | .error e => .error e
  | .ok entries => .ok (⟨assemble entries⟩, is_in_choice_zone)

/-- Categories of a resolution result (empty on an aborted resolution). -/
def resultsOf (r : Except Unit (Output × Bool)) : List ZoneResult :=
  match r with
  | .ok (out, _) => out.results_by_zone
  | .error _ => []

/-- All emitted schools of a result, tagged with their category, flattened
across `results_by_zone`. -/
def schoolsOfResult (r : Except Unit (Output × Bool)) : List (String × OutSchool) :=
  (resultsOf r).flatMap (fun z => z.schools.map (fun s => (z.zone_type, s)))

/-- School codes appearing anywhere in `results_by_zone`, with
multiplicity. -/
def codesOfResult (r : Except Unit (Output × Bool)) : List String :=
  (schoolsOfResult r).map (fun p => p.2.details.school_code_adjusted)

/-- First emitted entry carrying a given school code, with its category. -/
def entryOfCode (r : Except Unit (Output × Bool)) (code : String) :
    Option (String × OutSchool) :=
  (schoolsOfResult r).find? (fun p => decide (p.2.details.school_code_adjusted = code))

/-- Display status of the first emitted entry for a code. -/
def statusOfCode (r : Except Unit (Output × Bool)) (code : String) : Option String :=
  (entryOfCode r code).map (fun p => p.2.display_status)

/-- Category of the first emitted entry for a code. -/
def zoneOfCode (r : Except Unit (Output × Bool)) (code : String) : Option String :=
  (entryOfCode r code).map (fun p => p.1)

/-- Per-school distances of a result. -/
def distancesOfResult (r : Except Unit (Output × Bool)) : List (String × Option ℚ) :=
  (schoolsOfResult r).map (fun p => (p.2.details.school_code_adjusted, p.2.distance_mi))

/-- Display names of the schools emitted under one category, in emitted
order. -/
def zoneSchoolsNames (r : Except Unit (Output × Bool)) (zt : String) : List String :=
  match (resultsOf r).find? (fun z => decide (z.zone_type = zt)) with
  | some z => z.schools.map (fun s => s.details.display_name)
  | none => []

/-- Catalog row with every field empty, for building concrete fixtures. -/
def baseRec : SchoolRecord :=
  ⟨"", "", none, none, none, none, none, none, none, none, none, none, none,
   none, none, none, none⟩

/-- Zone whose polygon contains every point, for concrete fixtures. -/
def zoneOfRow (row : ZoneRow) : Zone := ⟨fun _ _ => true, row⟩

/-- Empty environment with a constant-zero distance function. -/
def baseEnv : Env := ⟨[], [], [], [], [], [], fun _ _ _ _ => 0⟩

/-- Fixture high school "Seneca High", reachable by GIS key "HS1". -/
def hsRecC1 : SchoolRecord :=
  { baseRec with
    school_code_adjusted := "H100", display_name := "Seneca High",
    school_level := some "High School", gis_name := some "HS1",
    latitude := some 1, longitude := some 1 }

/-- Fixture elementary school: a feeder of "Seneca High" that is also the
target of a Traditional/Magnet Elementary layer via GIS key "TM1". -/
def eRecC1 : SchoolRecord :=
  { baseRec with
    school_code_adjusted := "E200", display_name := "Price Elementary",
    school_level := some "Elementary School", gis_name := some "TM1",
    feeder_to_high_school := some "Seneca High",
    latitude := some 1, longitude := some 1 }

/-- Traditional/Magnet Elementary zone resolving to the fixture elementary
(magnet path). -/
def tmZoneC1 : Zone :=
  zoneOfRow ⟨"Traditional/Magnet Elementary", none, none, none, some "tm1"⟩

/-- Elementary-cluster zone whose High key feeds the fixture elementary
(reside path). -/
def clusterZoneC1 : Zone := zoneOfRow ⟨"Elementary", some "HS1", none, none, none⟩

/-- Environment in which the fixture elementary is reachable via both the
Magnet/Choice path and the Reside feeder path; the layers are matched in
concatenated shapefile order (Traditional layers before Reside layers). -/
def envC1 : Env := { baseEnv with
    zones := [tmZoneC1, clusterZoneC1], db := [hsRecC1, eRecC1] }

/-- Same catalog with only the magnet path present. -/
def envC1m : Env := { baseEnv with
    zones := [tmZoneC1], db := [hsRecC1, eRecC1] }

/-- Same catalog with only the reside feeder path present. -/
def envC1r : Env := { baseEnv with
    zones := [clusterZoneC1], db := [hsRecC1, eRecC1] }

/-- Academies-flagged school whose network column is NULL. -/
def aolRecC2 : SchoolRecord :=
  { baseRec with
    school_code_adjusted := "A300", display_name := "Acad High",
    school_level := some "High School", the_academies_of_louisville := some "Yes",
    latitude := some 1, longitude := some 1 }

/-- Environment with no zone layers at all (so no Reside-High zone can
match and the home network is None) and one NULL-network academies
school. -/
def envC2 : Env := { baseEnv with
    db := [aolRecC2] }

/-- Catalog in which two records of different levels share the GIS
identifier "ALPHA". -/
def dbC5 : List SchoolRecord :=
  [{ baseRec with
    school_code_adjusted := "M1", display_name := "Middle One",
     school_level := some "Middle School", gis_name := some "ALPHA" },
   { baseRec with
    school_code_adjusted := "H1", display_name := "High One",
     school_level := some "High School", gis_name := some "ALPHA" }]

/-- Universal-magnet school "Bravo Elementary", listed in the catalog
before "Alpha Elementary" and at the same distance. -/
def bravoC6 : SchoolRecord :=
  { baseRec with
    school_code_adjusted := "B1", display_name := "Bravo Elementary",
    school_level := some "Elementary School",
    universal_magnet_traditional_school := some "Yes",
    latitude := some 1, longitude := some 1 }

/-- Universal-magnet school "Alpha Elementary". -/
def alphaC6 : SchoolRecord :=
  { baseRec with
    school_code_adjusted := "A1", display_name := "Alpha Elementary",
    school_level := some "Elementary School",
    universal_magnet_traditional_school := some "Yes",
    latitude := some 1, longitude := some 1 }

/-- Environment with two equal-distance universal-magnet schools whose
catalog order is the reverse of their alphabetical order. -/
def envC6 : Env := { baseEnv with
    db := [bravoC6, alphaC6] }

/-- Reside high school of zone "ZoneA", used to establish the home
context. -/
def hsRecC7 : SchoolRecord :=
  { baseRec with
    school_code_adjusted := "H500", display_name := "Zone High",
    school_level := some "High School", gis_name := some "HSX",
    school_zone := some "ZoneA", network := some "N",
    latitude := some 1, longitude := some 1 }

/-- Satellite-listed school whose catalog level is Middle School, although
the satellite table always carries category Traditional/Magnet
Elementary. -/
def satRecC7 : SchoolRecord :=
  { baseRec with
    school_code_adjusted := "S600", display_name := "Sat Middle",
    school_level := some "Middle School", latitude := some 1, longitude := some 1 }

/-- Environment whose satellite table lists a Middle-School record under
the matched reside zone "ZoneA". -/
def envC7 : Env :=
  { baseEnv with
    zones := [zoneOfRow ⟨"High", some "HSX", none, none, none⟩],
    db := [hsRecC7, satRecC7],
    satellite_data := [("ZoneA", [some "S600"])] }

/-- Flag-included school with a present latitude but a NULL longitude. -/
def badLonRecC10 : SchoolRecord :=
  { baseRec with
    school_code_adjusted := "X1", display_name := "No Lon School",
    school_level := some "Elementary School",
    universal_magnet_traditional_school := some "Yes", latitude := some 1 }

/-- Environment containing a school with latitude present and longitude
NULL. -/
def envC10 : Env := { baseEnv with
    db := [badLonRecC10] }

/-- Folding the merger over a list of candidate assignments for one school
code, starting from an empty map: the repeated `add_school` calls a single
school receives during one resolution. -/
def mergeCandidates (s : String) (cs : List MapEntry) : FinalMap :=
  cs.foldl (fun m c => add_school m (some s) c.zone_type c.status) []

/-- The key actually used by `get_info_from_gis`:
`str(gis_name_key).strip().upper()`. -/
def lookupKeyOf (key : Option String) : String := strUpper (strTrim (key.getD ""))

/-- Python falsiness of the `latitude` column value (None or 0). -/
def latFalsy (d : SchoolRecord) : Bool :=
  match d.latitude with
  | none => true
  | some la => decide (la = 0)

/-- The emitted entry for the satellite-listed Middle-School fixture. -/
def outC7w : OutSchool := ⟨satRecC7, "Satellite School", some 0, none, none⟩

/-- Flag-query row carrying both `districtwide_pathways` and a
network-matching `the_academies_of_louisville` flag. -/
def bothFlagsRec : AddrIndepInfo :=
  ⟨"D1", "Both Flags High", some "High School", some "N", none, none, none,
   some "Yes", some "Yes"⟩

/-- C1 counterexample: in `envC1` the fixture elementary "E200" is
reachable both through a Magnet/Choice Program path (alone it yields status
"Magnet/Choice Program", `envC1m`) and through a Reside feeder path (alone
it yields "Reside", `envC1r`); with both paths present the final status is
"Reside", not the "Magnet/Choice Program" the claim requires, because
`add_school` keeps the numerically highest `current_priority` value
(Reside = 4) under its `>=` comparison. -/
theorem c1_counterexample :
    statusOfCode (find_school_zones_and_details envC1m 1 1 none false) "E200" =
      some "Magnet/Choice Program" ∧
    statusOfCode (find_school_zones_and_details envC1r 1 1 none false) "E200" =
      some "Reside" ∧
    statusOfCode (find_school_zones_and_details envC1 1 1 none false) "E200" =
      some "Reside" ∧
    some "Reside" ≠ some "Magnet/Choice Program" := by
  refine ⟨by decide, by decide, by decide, by decide⟩

/-- C2 counterexample: with no zone layers matched the home context is
(None, None), yet the academies rule still fires for a flagged school whose
network column is NULL — `school_info.get('network') == user_network`
is the plain Python equality None == None — so "A300" is included with
status "Academies of Louisville" although the claim says the rule can then
never fire. -/
theorem c2_counterexample :
    find_user_context envC2.db [] = (none, none) ∧
    aolRecC2.network = none ∧
    statusOfCode (find_school_zones_and_details envC2 1 1 none false) "A300" =
      some "Academies of Louisville" := by
  refine ⟨by decide, by decide, by decide⟩

/-- C3: the flag-driven eligibility rules are applied first-match-wins in
the order districtwide_pathways, then network-matched
the_academies_of_louisville, then the universal magnet/traditional flags;
a school with both districtwide_pathways and a matching-network academies
flag therefore gets status "Magnet/Choice Program", and a record matching
no rule leaves the merge map unchanged. -/
theorem c3_rule_order : ∀ (un : Option String) (s : AddrIndepInfo) (m : FinalMap),
    (s.districtwide_pathways = some "Yes" →
      eligibility_status un s = some "Magnet/Choice Program") ∧
    (s.districtwide_pathways ≠ some "Yes" → s.the_academies_of_louisville = some "Yes" →
      s.network = un → eligibility_status un s = some "Academies of Louisville") ∧
    (s.districtwide_pathways ≠ some "Yes" →
      ¬(s.the_academies_of_louisville = some "Yes" ∧ s.network = un) →
      (s.universal_magnet_traditional_school = some "Yes" ∨
        s.universal_magnet_traditional_program = some "Yes") →
      eligibility_status un s = some "Magnet/Choice Program") ∧
    (eligibility_status un s = none → flag_step un m s = m) := by
  intro un s m
  refine ⟨?_, ?_, ?_, ?_⟩
  · intro h; simp [eligibility_status, h]
  · intro h1 h2 h3; simp [eligibility_status, h1, h2, h3]
  · intro h1 h2 h3
    rcases h3 with h3 | h3 <;> simp [eligibility_status, h1, h2, h3]
  · intro h; simp [flag_step, h]

/-- C3 witness: the fixture row with both flags set and a matching network
gets status "Magnet/Choice Program" by the first rule. -/
theorem c3_rule_order_witness :
    bothFlagsRec.districtwide_pathways = some "Yes" ∧
    bothFlagsRec.the_academies_of_louisville = some "Yes" ∧
    bothFlagsRec.network = some "N" ∧
    eligibility_status (some "N") bothFlagsRec = some "Magnet/Choice Program" :=
  ⟨rfl, rfl, rfl, (c3_rule_order (some "N") bothFlagsRec []).1 rfl⟩

/-- C5 counterexample: two catalog records of different levels share the
GIS identifier "ALPHA"; with no level hint `get_info_from_gis` returns the
first table row ("M1") instead of the not-found the claim requires, while a
level hint does disambiguate. -/
theorem c5_counterexample :
    get_info_from_gis dbC5 (some " Alpha ") none = ⟨some "M1", some "Middle One"⟩ ∧
    (get_info_from_gis dbC5 (some " Alpha ") none).sca ≠ none ∧
    get_info_from_gis dbC5 (some " Alpha ") (some "High School") =
      ⟨some "H1", some "High One"⟩ := by
  refine ⟨by decide, by decide, by decide⟩

/-- C6: the caller-supplied sort parameters are accepted but never read, so
every choice of `sort_key`/`sort_desc` yields the same output, and within a
category equal distances keep catalog insertion order — in `envC6` the two
equal-distance schools are emitted as Bravo before Alpha, with no
display_name tie-break. -/
theorem c6_behavior :
    (∀ (env : Env) (lat lon : ℚ) (sk1 sk2 : Option String) (sd1 sd2 : Bool),
      find_school_zones_and_details env lat lon sk1 sd1 =
        find_school_zones_and_details env lat lon sk2 sd2) ∧
    zoneSchoolsNames (find_school_zones_and_details envC6 1 1 (some "display_name") false)
        "Traditional/Magnet Elementary" = ["Bravo Elementary", "Alpha Elementary"] ∧
    distancesOfResult (find_school_zones_and_details envC6 1 1 (some "display_name") false) =
      [("B1", some 0), ("A1", some 0)] :=
  ⟨fun _ _ _ _ _ _ _ => rfl, by decide, by decide⟩

/-- C9: resolution is deterministic — with the zone store, catalog,
override tables and distance function fixed in `env`, two runs on the same
point give the same result, hence the same school codes and identical
per-school distances. -/
theorem c9_deterministic : ∀ (env : Env) (lat lon : ℚ) (sk : Option String) (sd : Bool)
    (r1 r2 : Except Unit (Output × Bool)),
    find_school_zones_and_details env lat lon sk sd = r1 →
    find_school_zones_and_details env lat lon sk sd = r2 →
    r1 = r2 ∧ distancesOfResult r1 = distancesOfResult r2 ∧
      codesOfResult r1 = codesOfResult r2 := by
  intro env lat lon sk sd r1 r2 h1 h2
  subst h1; subst h2; exact ⟨rfl, rfl, rfl⟩

/-- C9 witness: the two runs on the fixture environment coincide. -/
theorem c9_deterministic_witness :
    find_school_zones_and_details envC1 1 1 none false =
        find_school_zones_and_details envC1 1 1 none false ∧
    distancesOfResult (find_school_zones_and_details envC1 1 1 none false) =
        distancesOfResult (find_school_zones_and_details envC1 1 1 none false) ∧
    codesOfResult (find_school_zones_and_details envC1 1 1 none false) =
        codesOfResult (find_school_zones_and_details envC1 1 1 none false) :=
  c9_deterministic envC1 1 1 none false _ _ rfl rfl

/-- C10: the distance expression guards only on latitude — the computed
distance is null exactly when the latitude column is falsy (None or 0); a
truthy latitude with a NULL longitude raises instead, modelled as the
Except error, and in `envC10` that failure aborts the whole resolution. -/
theorem c10_distance_guard :
    (∀ (geo : ℚ → ℚ → ℚ → ℚ → ℚ) (lat lon : ℚ) (d : SchoolRecord),
      (compute_distance_mi geo lat lon d = .ok none ↔ latFalsy d = true) ∧
      (compute_distance_mi geo lat lon d = .error () ↔
        (latFalsy d = false ∧ d.longitude = none)) ∧
      (∀ la lo, d.latitude = some la → la ≠ 0 → d.longitude = some lo →
        compute_distance_mi geo lat lon d = .ok (some (geo lat lon la lo)))) ∧
    find_school_zones_and_details envC10 1 1 none false = .error () := by
  refine ⟨?_, rfl⟩
  intro geo lat lon d
  refine ⟨?_, ?_, ?_⟩
  · cases hla : d.latitude with
    | none => simp [compute_distance_mi, latFalsy, hla]
    | some la =>
      by_cases h0 : la = 0
      · simp [compute_distance_mi, latFalsy, hla, h0]
      · cases hlo : d.longitude with
        | none => simp [compute_distance_mi, latFalsy, hla, h0, hlo]
        | some lo => simp [compute_distance_mi, latFalsy, hla, h0, hlo]
  · cases hla : d.latitude with
    | none => simp [compute_distance_mi, latFalsy, hla]
    | some la =>
      by_cases h0 : la = 0
      · simp [compute_distance_mi, latFalsy, hla, h0]
      · cases hlo : d.longitude with
        | none => simp [compute_distance_mi, latFalsy, hla, h0, hlo]
        | some lo => simp [compute_distance_mi, latFalsy, hla, h0, hlo]
  · intro la lo hla h0 hlo
    simp [compute_distance_mi, hla, h0, hlo]

/-- C10 witness: a record with latitude 1 and longitude 1 at the constant
distance function gets distance 0, by the third clause of the guard
theorem. -/
theorem c10_distance_guard_witness :
    compute_distance_mi (fun _ _ _ _ => 0) 1 1 eRecC1 = .ok (some 0) :=
  (c10_distance_guard.1 (fun _ _ _ _ => 0) 1 1 eRecC1).2.2 1 1 rfl
    (by norm_num) rfl

/-- C2 amended: status "Academies of Louisville" is assigned only when the
flag is "Yes" and `record.network == user_network` under plain Python
equality — so with no matched Reside-High zone (home network None) the rule
fires exactly for flagged schools whose network column is NULL and whose
districtwide flag is not "Yes", rather than never firing. -/
theorem c2_amended : ∀ (un : Option String) (s : AddrIndepInfo),
    (eligibility_status un s = some "Academies of Louisville" →
      s.the_academies_of_louisville = some "Yes" ∧ s.network = un) ∧
    (un = none →
      (eligibility_status un s = some "Academies of Louisville" ↔
        (s.the_academies_of_louisville = some "Yes" ∧ s.network = none ∧
          s.districtwide_pathways ≠ some "Yes"))) := by
  intro un s
  constructor
  · intro h
    by_cases h1 : s.districtwide_pathways = some "Yes" <;>
      by_cases h2 : s.the_academies_of_louisville = some "Yes" ∧ s.network = un <;>
      simp_all [eligibility_status]
  · intro hun
    subst hun
    constructor
    · intro h
      by_cases h1 : s.districtwide_pathways = some "Yes" <;>
        by_cases h2 : s.the_academies_of_louisville = some "Yes" ∧ s.network = none <;>
        simp_all [eligibility_status]
    · rintro ⟨h1, h2, h3⟩
      simp [eligibility_status, h1, h2, h3]

/-- C2 amended witness: the NULL-network flagged fixture school satisfies
the amended rule with home network None. -/
theorem c2_amended_witness :
    (toAddrIndep aolRecC2).the_academies_of_louisville = some "Yes" ∧
    (toAddrIndep aolRecC2).network = none ∧
    (toAddrIndep aolRecC2).districtwide_pathways ≠ some "Yes" ∧
    eligibility_status none (toAddrIndep aolRecC2) = some "Academies of Louisville" := by
  refine ⟨rfl, rfl, by decide, ?_⟩
  exact ((c2_amended none (toAddrIndep aolRecC2)).2 rfl).mpr ⟨rfl, rfl, by decide⟩

/-- C7 counterexample: the satellite-listed school "S600" has catalog
school_level "Middle School" but keeps the carried candidate category
"Traditional/Magnet Elementary" (its status "Satellite School" is not
Reside, so no re-derivation happens), where the claim requires the
re-derived "Traditional/Magnet Middle". -/
theorem c7_counterexample :
    zoneOfCode (find_school_zones_and_details envC7 1 1 none false) "S600" =
      some "Traditional/Magnet Elementary" ∧
    statusOfCode (find_school_zones_and_details envC7 1 1 none false) "S600" =
      some "Satellite School" ∧
    satRecC7.school_level = some "Middle School" ∧
    some "Traditional/Magnet Elementary" ≠ some "Traditional/Magnet Middle" := by
  refine ⟨by decide, by decide, rfl, by decide⟩

/-- C7 amended: the emitted category of a final entry equals
`final_zone_type_of`: for status Reside with a recognised school_level it
is the re-derived plain category, while for every other status the
candidate category is used as-is (no re-derivation). -/
theorem c7_amended : ∀ (env : Env) (lat lon : ℚ) (kv : String × MapEntry)
    (zt : String) (sc : OutSchool),
    process_entry env lat lon kv = .ok (some (zt, sc)) →
    sc.display_status = kv.2.status ∧
    zt = final_zone_type_of kv.2 sc.details ∧
    (kv.2.status ≠ "Reside" → zt = kv.2.zone_type) ∧
    (kv.2.status = "Reside" → sc.details.school_level = some "Elementary School" →
      zt = "Elementary") ∧
    (kv.2.status = "Reside" → sc.details.school_level = some "Middle School" →
      zt = "Middle") ∧
    (kv.2.status = "Reside" → sc.details.school_level = some "High School" →
      zt = "High") := by
  intro env lat lon kv zt sc h
  simp only [process_entry] at h
  split at h
  · simp at h
  · rename_i d hd
    split at h
    · simp at h
    · rename_i dist hc
      simp only [Except.ok.injEq, Option.some.injEq, Prod.mk.injEq] at h
      obtain ⟨hzt, hsc⟩ := h
      subst hzt
      refine ⟨?_, ?_, ?_, ?_, ?_, ?_⟩
      · rw [← hsc]
      · rw [← hsc]
      · intro hst; simp [final_zone_type_of, hst]
      · intro hst hlvl; rw [← hsc] at hlvl; simp at hlvl
        simp [final_zone_type_of, hst, hlvl]
      · intro hst hlvl; rw [← hsc] at hlvl; simp at hlvl
        simp [final_zone_type_of, hst, hlvl]
      · intro hst hlvl; rw [← hsc] at hlvl; simp at hlvl
        simp [final_zone_type_of, hst, hlvl]

/-- C7 amended witness: the satellite fixture entry is processed with its
carried category kept, since its status is not Reside. -/
theorem c7_amended_witness :
    outC7w.display_status = "Satellite School" ∧
    "Traditional/Magnet Elementary" =
      final_zone_type_of ⟨"Traditional/Magnet Elementary", "Satellite School"⟩ outC7w.details ∧
    "Traditional/Magnet Elementary" =
      (MapEntry.mk "Traditional/Magnet Elementary" "Satellite School").zone_type := by
  have h := c7_amended envC7 1 1 ("S600", ⟨"Traditional/Magnet Elementary", "Satellite School"⟩)
    "Traditional/Magnet Elementary" outC7w rfl
  exact ⟨h.1, h.2.1, h.2.2.1 (by decide)⟩

theorem dictGet_updateEntry_self (m : FinalMap) (k : String) (e : MapEntry) :
    dictGet (updateEntry m k e) k = some e := by
  induction m with
  | nil => simp [updateEntry, dictGet]
  | cons kv t ih =>
    obtain ⟨k1, e1⟩ := kv
    by_cases h : k1 = k
    · simp [updateEntry, dictGet, h]
    · simp [updateEntry, dictGet, h, ih]

theorem mergeCandidates_append (s : String) (cs : List MapEntry) (c : MapEntry) :
    mergeCandidates s (cs ++ [c]) =
      add_school (mergeCandidates s cs) (some s) c.zone_type c.status := by
  simp [mergeCandidates, List.foldl_append]

/-- C1 amended: for a school code receiving several Candidate Assignments,
`add_school` keeps the candidate whose `current_priority` value (Academy
Choice 1, Magnet/Choice Program 2, Satellite School 3, Reside 4, anything
else — including "Academies of Louisville" — 0) is numerically HIGHEST, so
Reside outranks Magnet/Choice Program; and under its `>=` comparison a tie
keeps the LAST candidate seen: the winner is always the last candidate of
maximal priority. -/
theorem c1_amended : ∀ (s : String), s ≠ "" → ∀ (cs : List MapEntry), cs ≠ [] →
    ∃ e l1 l2, dictGet (mergeCandidates s cs) s = some e ∧ cs = l1 ++ e :: l2 ∧
      (∀ c ∈ cs, statusPriority c.status ≤ statusPriority e.status) ∧
      (∀ c ∈ l2, statusPriority c.status < statusPriority e.status) := by
  intro s hs cs
  induction cs using List.reverseRecOn with
  | nil => intro h; exact absurd rfl h
  | append_singleton l a ih =>
    intro _
    rcases eq_or_ne l [] with hl | hl
    · subst hl
      refine ⟨a, [], [], ?_, by simp, ?_, by simp⟩
      · have h0 : statusPriority "" = 0 := by decide
        simp [mergeCandidates, add_school, pyTruthy, hs, dictGet, updateEntry, h0]
      · intro c hc; simp at hc; subst hc; exact le_refl _
    · obtain ⟨e, l1, l2, hget, hdecomp, hmax, hlast⟩ := ih hl
      rw [mergeCandidates_append]
      by_cases hp : statusPriority e.status ≤ statusPriority a.status
      · refine ⟨a, l, [], ?_, by simp, ?_, by simp⟩
        · simp [add_school, pyTruthy, hs, hget, hp, dictGet_updateEntry_self]
        · intro c hc
          rcases List.mem_append.mp hc with hc | hc
          · exact le_trans (hmax c hc) hp
          · simp at hc; subst hc; exact le_refl _
      · push_neg at hp
        refine ⟨e, l1, l2 ++ [a], ?_, ?_, ?_, ?_⟩
        · simp [add_school, pyTruthy, hs, hget, Nat.not_le.mpr hp]
        · rw [hdecomp]; simp
        · intro c hc
          rcases List.mem_append.mp hc with hc | hc
          · exact hmax c hc
          · simp at hc; subst hc; exact le_of_lt hp
        · intro c hc
          rcases List.mem_append.mp hc with hc | hc
          · exact hlast c hc
          · simp at hc; subst hc; exact hp

/-- C1 amended witness: merging a Magnet/Choice candidate and then a Reside
candidate for one code keeps the Reside one (the last of maximal
priority). -/
theorem c1_amended_witness :
    ∃ e l1 l2,
      dictGet (mergeCandidates "E200"
        [⟨"Traditional/Magnet Elementary", "Magnet/Choice Program"⟩,
         ⟨"Elementary", "Reside"⟩]) "E200" = some e ∧
      ([⟨"Traditional/Magnet Elementary", "Magnet/Choice Program"⟩,
        (⟨"Elementary", "Reside"⟩ : MapEntry)] : List MapEntry) = l1 ++ e :: l2 ∧
      (∀ c ∈ [(⟨"Traditional/Magnet Elementary", "Magnet/Choice Program"⟩ : MapEntry),
        ⟨"Elementary", "Reside"⟩], statusPriority c.status ≤ statusPriority e.status) ∧
      (∀ c ∈ l2, statusPriority c.status < statusPriority e.status) :=
  c1_amended "E200" (by decide)
    [⟨"Traditional/Magnet Elementary", "Magnet/Choice Program"⟩, ⟨"Elementary", "Reside"⟩]
    (by decide)

theorem filter_head_first {α : Type} (p : α → Bool) :
    ∀ (l : List α) (x : α), (l.filter p).head? = some x →
      ∃ l1 l2, l = l1 ++ x :: l2 ∧ p x = true ∧ ∀ y ∈ l1, p y = false := by
  intro l
  induction l with
  | nil => intro x h; simp at h
  | cons a t ih =>
    intro x h
    by_cases hp : p a
    · rw [List.filter_cons_of_pos hp] at h
      simp only [List.head?_cons, Option.some.injEq] at h
      subst h
      exact ⟨[], t, by simp, hp, by simp⟩
    · rw [List.filter_cons_of_neg (by simpa using hp)] at h
      obtain ⟨l1, l2, hd, hx, hall⟩ := ih x h
      refine ⟨a :: l1, l2, by simp [hd], hx, ?_⟩
      intro y hy
      rcases List.mem_cons.mp hy with hy | hy
      · subst hy; simpa using hp
      · exact hall y hy

/-- C5 amended: a falsy GIS key resolves to not-found, and whenever the
lookup returns a code it is the code of the FIRST table row matching the
trimmed upper-cased key (restricted by the level hint when given) — under
a shared GIS identifier with no hint the function guesses the first
candidate instead of returning not-found; it never raises. -/
theorem c5_amended : ∀ (db : List SchoolRecord) (key hint : Option String),
    (pyTruthy key = false → get_info_from_gis db key hint = ⟨none, none⟩) ∧
    (∀ c, (get_info_from_gis db key hint).sca = some c →
      ∃ l1 r l2, db = l1 ++ r :: l2 ∧
        gisMatches (lookupKeyOf key) hint r = true ∧
        (∀ r2 ∈ l1, gisMatches (lookupKeyOf key) hint r2 = false) ∧
        c = r.school_code_adjusted ∧
        (get_info_from_gis db key hint).display_name = some r.display_name) := by
  intro db key hint
  constructor
  · intro h; simp [get_info_from_gis, h]
  · intro c h
    by_cases ht : pyTruthy key
    · have hun : get_info_from_gis db key hint =
          match (db.filter (gisMatches (strUpper (strTrim (key.getD ""))) hint)).head? with
          | none => (⟨none, none⟩ : GisInfo)
          | some r => ⟨some r.school_code_adjusted, some r.display_name⟩ := by
        rw [get_info_from_gis, if_pos ht]
      rw [hun] at h ⊢
      cases hh : (db.filter (gisMatches (strUpper (strTrim (key.getD ""))) hint)).head? with
      | none => rw [hh] at h; exact Option.noConfusion h
      | some r =>
        rw [hh] at h
        have h2 : some r.school_code_adjusted = some c := h
        obtain ⟨l1, l2, hd, hx, hall⟩ :=
          filter_head_first (gisMatches (strUpper (strTrim (key.getD ""))) hint) db r hh
        exact ⟨l1, r, l2, hd, by simpa [lookupKeyOf] using hx,
          by simpa [lookupKeyOf] using hall, (Option.some_inj.mp h2).symm, rfl⟩
    · rw [get_info_from_gis] at h
      simp [ht] at h

/-- C5 amended witness: on the shared-identifier catalog the lookup without
a hint returns the code of the first matching row. -/
theorem c5_amended_witness :
    ∃ l1 r l2, dbC5 = l1 ++ r :: l2 ∧
      gisMatches (lookupKeyOf (some " Alpha ")) none r = true ∧
      (∀ r2 ∈ l1, gisMatches (lookupKeyOf (some " Alpha ")) none r2 = false) ∧
      "M1" = r.school_code_adjusted ∧
      (get_info_from_gis dbC5 (some " Alpha ") none).display_name = some r.display_name :=
  (c5_amended dbC5 (some " Alpha ") none).2 "M1" (by decide)

theorem stableInsert_perm {α : Type} (le : α → α → Bool) (a : α) :
    ∀ l : List α, (stableInsert le a l).Perm (a :: l) := by
  intro l
  induction l with
  | nil => simp [stableInsert]
  | cons b t ih =>
    simp only [stableInsert]
    split
    · exact (ih.cons b).trans (List.Perm.swap a b t)
    · exact List.Perm.refl _

theorem stableSort_perm {α : Type} (le : α → α → Bool) (l : List α) :
    (stableSort le l).Perm l := by
  suffices h : ∀ (l s : List α), (l.foldl (fun s a => stableInsert le a s) s).Perm (s ++ l) by
    simpa using h l []
  intro l
  induction l with
  | nil => intro s; simp
  | cons a t ih =>
    intro s
    rw [List.foldl_cons]
    refine (ih (stableInsert le a s)).trans ?_
    refine (List.Perm.append_right t (stableInsert_perm le a s)).trans ?_
    exact List.perm_middle.symm

theorem mem_keys_updateEntry : ∀ (m : FinalMap) (k a : String) (e : MapEntry),
    a ∈ (updateEntry m k e).map Prod.fst → a ∈ m.map Prod.fst ∨ a = k := by
  intro m k a e
  induction m with
  | nil =>
    intro h
    simp [updateEntry] at h
    exact Or.inr h
  | cons kv t ih =>
    intro h
    obtain ⟨k1, e1⟩ := kv
    by_cases hk : k1 = k
    · rw [updateEntry, if_pos hk] at h
      simp only [List.map_cons, List.mem_cons] at h
      rcases h with h | h
      · exact Or.inr h
      · exact Or.inl (by rw [List.map_cons]; exact List.mem_cons_of_mem _ h)
    · rw [updateEntry, if_neg hk] at h
      simp only [List.map_cons, List.mem_cons] at h
      rcases h with h | h
      · exact Or.inl (by rw [List.map_cons, h]; exact List.mem_cons_self _ _)
      · rcases ih h with h2 | h2
        · exact Or.inl (by rw [List.map_cons]; exact List.mem_cons_of_mem _ h2)
        · exact Or.inr h2

theorem nodup_keys_updateEntry : ∀ (m : FinalMap) (k : String) (e : MapEntry),
    (m.map Prod.fst).Nodup → ((updateEntry m k e).map Prod.fst).Nodup := by
  intro m k e
  induction m with
  | nil => intro _; simp [updateEntry]
  | cons kv t ih =>
    intro h
    obtain ⟨k1, e1⟩ := kv
    simp only [List.map_cons, List.nodup_cons] at h
    obtain ⟨hk1, ht⟩ := h
    by_cases hk : k1 = k
    · rw [updateEntry, if_pos hk]
      simp only [List.map_cons, List.nodup_cons]
      exact ⟨by rw [← hk]; exact hk1, ht⟩
    · rw [updateEntry, if_neg hk]
      simp only [List.map_cons, List.nodup_cons]
      refine ⟨?_, ih ht⟩
      intro hmem
      rcases mem_keys_updateEntry t k k1 e hmem with h2 | h2
      · exact hk1 h2
      · exact hk h2

theorem nodup_keys_add_school : ∀ (m : FinalMap) (sca : Option String) (zt st : String),
    (m.map Prod.fst).Nodup → ((add_school m sca zt st).map Prod.fst).Nodup := by
  intro m sca zt st h
  simp only [add_school]
  split
  · split
    · exact nodup_keys_updateEntry m _ _ h
    · exact h
  · exact h

theorem nodup_keys_foldl {α : Type} (step : FinalMap → α → FinalMap)
    (hstep : ∀ m a, (m.map Prod.fst).Nodup → ((step m a).map Prod.fst).Nodup) :
    ∀ (l : List α) (m : FinalMap),
      (m.map Prod.fst).Nodup → ((l.foldl step m).map Prod.fst).Nodup := by
  intro l
  induction l with
  | nil => intro m h; simpa using h
  | cons a t ih =>
    intro m h
    rw [List.foldl_cons]
    exact ih (step m a) (hstep m a h)

theorem nodup_keys_gis_step : ∀ (db : List SchoolRecord) (m : FinalMap) (z : Zone),
    (m.map Prod.fst).Nodup → ((gis_step db m z).map Prod.fst).Nodup := by
  intro db m z h
  simp only [gis_step]
  repeat' split
  all_goals first
    | exact h
    | exact nodup_keys_add_school _ _ _ _ h
    | exact nodup_keys_foldl _ (fun m' a h' => nodup_keys_add_school m' _ _ _ h') _ m h

theorem nodup_keys_json_steps : ∀ (env : Env) (uname : Option String) (icz : Bool)
    (m : FinalMap),
    (m.map Prod.fst).Nodup → ((json_steps env uname icz m).map Prod.fst).Nodup := by
  intro env uname icz m h
  have hadd : ∀ (zt st : String) (lst : List (Option String)) (m0 : FinalMap),
      (m0.map Prod.fst).Nodup →
      ((lst.foldl (fun m' sc => add_school m' sc zt st) m0).map Prod.fst).Nodup := by
    intro zt st lst m0 h0
    exact nodup_keys_foldl _ (fun m' a h' => nodup_keys_add_school m' _ _ _ h') lst m0 h0
  simp only [json_steps]
  repeat' split
  all_goals repeat first
    | assumption
    | apply hadd

theorem nodup_keys_flag_step : ∀ (un : Option String) (m : FinalMap) (s : AddrIndepInfo),
    (m.map Prod.fst).Nodup → ((flag_step un m s).map Prod.fst).Nodup := by
  intro un m s h
  simp only [flag_step]
  split
  · exact h
  · split
    · exact nodup_keys_add_school _ _ _ _ h
    · exact h

theorem school_details_get_code : ∀ (db : List SchoolRecord) (sca : String) (d : SchoolRecord),
    school_details_get db sca = some d → d.school_code_adjusted = sca := by
  intro db sca d h
  simp only [school_details_get] at h
  split at h
  · rename_i hcond
    have hm : d ∈ db.filter (fun r => decide (r.school_code_adjusted = strTrim sca)) :=
      List.mem_of_mem_getLast? h
    have h2 : d.school_code_adjusted = strTrim sca := by
      simpa using (List.mem_filter.mp hm).2
    rw [h2, hcond.2]
  · exact absurd h (by simp)

theorem process_entry_code : ∀ (env : Env) (lat lon : ℚ) (kv : String × MapEntry)
    (p : String × OutSchool), process_entry env lat lon kv = .ok (some p) →
    p.2.details.school_code_adjusted = kv.1 := by
  intro env lat lon kv p h
  simp only [process_entry] at h
  split at h
  · simp at h
  · rename_i d hd
    split at h
    · simp at h
    · simp only [Except.ok.injEq, Option.some.injEq] at h
      rw [← h]
      exact school_details_get_code env.db kv.1 d hd

theorem processItems_codes_sublist : ∀ (env : Env) (lat lon : ℚ)
    (m : List (String × MapEntry)) (l : List (String × OutSchool)),
    processItems env lat lon m = .ok l →
    (l.map (fun p => p.2.details.school_code_adjusted)).Sublist (m.map Prod.fst) := by
  intro env lat lon m
  induction m with
  | nil =>
    intro l h
    simp only [processItems, Except.ok.injEq] at h
    subst h
    simp
  | cons kv t ih =>
    intro l h
    simp only [processItems] at h
    split at h
    · exact absurd h (by simp)
    · exact List.Sublist.cons _ (ih l h)
    · rename_i p hp
      split at h
      · exact absurd h (by simp)
      · rename_i ps hps
        simp only [Except.ok.injEq] at h
        subst h
        simp only [List.map_cons]
        rw [process_entry_code env lat lon kv p hp]
        exact List.Sublist.cons₂ _ (ih ps hps)

theorem bucket_some_eq (entries : List (String × OutSchool)) (zt : String) (z : ZoneResult)
    (hz : (let bucket := entries.filter (fun e => decide (e.1 = zt))
           if bucket.isEmpty then none
           else some (⟨zt, sortSchools (bucket.map (fun e => e.2))⟩ : ZoneResult)) = some z) :
    ¬ (entries.filter (fun e => decide (e.1 = zt))).isEmpty = true ∧
    z = ⟨zt, sortSchools ((entries.filter (fun e => decide (e.1 = zt))).map (fun e => e.2))⟩ := by
  by_cases hbe : (entries.filter (fun e => decide (e.1 = zt))).isEmpty
  · have hz' : (if (entries.filter (fun e => decide (e.1 = zt))).isEmpty then none
        else some (⟨zt, sortSchools ((entries.filter (fun e => decide (e.1 = zt))).map
          (fun e => e.2))⟩ : ZoneResult)) = some z := hz
    rw [if_pos hbe] at hz'
    exact Option.noConfusion hz'
  · have hz' : (if (entries.filter (fun e => decide (e.1 = zt))).isEmpty then none
        else some (⟨zt, sortSchools ((entries.filter (fun e => decide (e.1 = zt))).map
          (fun e => e.2))⟩ : ZoneResult)) = some z := hz
    rw [if_neg hbe] at hz'
    exact ⟨hbe, (Option.some_inj.mp hz').symm⟩

theorem nodup_codes_buckets (entries : List (String × OutSchool))
    (order : List String) (hord : order.Nodup)
    (h : (entries.map (fun p => p.2.details.school_code_adjusted)).Nodup) :
    (((order.filterMap (fun zt =>
        let bucket := entries.filter (fun e => decide (e.1 = zt))
        if bucket.isEmpty then none
        else some (⟨zt, sortSchools (bucket.map (fun e => e.2))⟩ : ZoneResult))).flatMap
        (fun z => z.schools.map (fun s => (z.zone_type, s)))).map
      (fun p => p.2.details.school_code_adjusted)).Nodup := by
  have hcode : ∀ zt : String,
      (((entries.filter (fun e => decide (e.1 = zt))).map (fun e => e.2)).map
        (fun s => s.details.school_code_adjusted)).Nodup := by
    intro zt
    rw [List.map_map]
    exact List.Nodup.sublist ((List.filter_sublist entries).map _) h
  have hmem : ∀ (zt c : String),
      c ∈ (sortSchools ((entries.filter (fun e => decide (e.1 = zt))).map (fun e => e.2))).map
          (fun s => s.details.school_code_adjusted) →
      ∃ e, e ∈ entries ∧ e.1 = zt ∧ e.2.details.school_code_adjusted = c := by
    intro zt c hc
    have hperm :=
      (stableSort_perm distLE ((entries.filter (fun e => decide (e.1 = zt))).map
        (fun e => e.2))).map (fun s => s.details.school_code_adjusted)
    have hc2 : c ∈ ((entries.filter (fun e => decide (e.1 = zt))).map (fun e => e.2)).map
        (fun s => s.details.school_code_adjusted) := (hperm.mem_iff).mp hc
    rw [List.map_map] at hc2
    obtain ⟨e, he, hce⟩ := List.mem_map.mp hc2
    obtain ⟨hee, hzt⟩ := List.mem_filter.mp he
    exact ⟨e, hee, by simpa using hzt, hce⟩
  rw [List.map_flatMap]
  have hmm2 : ∀ z : ZoneResult,
      (z.schools.map (fun s => (z.zone_type, s))).map
        (fun p : String × OutSchool => p.2.details.school_code_adjusted) =
      z.schools.map (fun s => s.details.school_code_adjusted) := by
    intro z; rw [List.map_map]; rfl
  simp only [hmm2]
  rw [List.flatMap_def, List.nodup_flatten]
  constructor
  · intro l hl
    obtain ⟨z, hz, rfl⟩ := List.mem_map.mp hl
    obtain ⟨zt, hzt, hfz⟩ := List.mem_filterMap.mp hz
    obtain ⟨hbe, hzz⟩ := bucket_some_eq entries zt z hfz
    subst hzz
    have hperm :=
      (stableSort_perm distLE ((entries.filter (fun e => decide (e.1 = zt))).map
        (fun e => e.2))).map (fun s => s.details.school_code_adjusted)
    exact (hperm.symm).nodup (hcode zt)
  · rw [List.pairwise_map, List.pairwise_filterMap]
    refine List.Pairwise.imp ?_ hord
    intro a b hne z1 hz1 z2 hz2
    obtain ⟨hbe1, hz1e⟩ := bucket_some_eq entries a z1 hz1
    obtain ⟨hbe2, hz2e⟩ := bucket_some_eq entries b z2 hz2
    subst hz1e; subst hz2e
    intro c hc1 hc2
    obtain ⟨e1, he1, hz1m, hc1m⟩ := hmem a c hc1
    obtain ⟨e2, he2, hz2m, hc2m⟩ := hmem b c hc2
    have heq := List.inj_on_of_nodup_map h he1 he2 (by rw [hc1m, hc2m])
    apply hne
    rw [← hz1m, ← hz2m, heq]

/-- C4: for every environment and query point, no school code appears twice
across the whole `results_by_zone` output (an aborted resolution yields no
codes at all): the merge map is keyed by code, each processed entry carries
its key as its code, and the emission partitions entries into disjoint
category buckets. -/
theorem c4_no_duplicate_codes : ∀ (env : Env) (lat lon : ℚ) (sk : Option String) (sd : Bool),
    (codesOfResult (find_school_zones_and_details env lat lon sk sd)).Nodup := by
  intro env lat lon sk sd
  have hM : ((mergedMap env lat lon).map Prod.fst).Nodup := by
    simp only [mergedMap]
    apply nodup_keys_foldl _ (fun m a h => nodup_keys_flag_step _ m a h)
    apply nodup_keys_json_steps
    apply nodup_keys_foldl _ (fun m a h => nodup_keys_gis_step env.db m a h)
    simp
  simp only [find_school_zones_and_details]
  cases hp : processItems env lat lon (mergedMap env lat lon) with
  | error e => simp [codesOfResult, schoolsOfResult, resultsOf]
  | ok entries =>
    have hcodes : (entries.map (fun p => p.2.details.school_code_adjusted)).Nodup :=
      List.Nodup.sublist (processItems_codes_sublist env lat lon _ entries hp) hM
    simp only [codesOfResult, schoolsOfResult, resultsOf, assemble]
    exact nodup_codes_buckets entries category_order (by decide) hcodes

theorem filterMap_zone_sublist : ∀ (l : List String) (f : String → Option ZoneResult),
    (∀ a z, f a = some z → z.zone_type = a) →
    ((l.filterMap f).map ZoneResult.zone_type).Sublist l := by
  intro l f hf
  induction l with
  | nil => simp
  | cons a t ih =>
    rw [List.filterMap_cons]
    cases hfa : f a with
    | none => exact List.Sublist.cons a ih
    | some z =>
      rw [List.map_cons, hf a z hfa]
      exact List.Sublist.cons₂ a ih

/-- C8: the emitted categories are always, in order, a subsequence of the
fixed list Elementary, Middle, High, Traditional/Magnet Elementary,
Traditional/Magnet Middle, Traditional/Magnet High, and no emitted category
is empty (empty buckets are omitted). -/
theorem c8_category_order : ∀ (env : Env) (lat lon : ℚ) (sk : Option String) (sd : Bool),
    ((resultsOf (find_school_zones_and_details env lat lon sk sd)).map
      ZoneResult.zone_type).Sublist category_order ∧
    (resultsOf (find_school_zones_and_details env lat lon sk sd)).all
      (fun z => !z.schools.isEmpty) = true := by
  intro env lat lon sk sd
  simp only [find_school_zones_and_details]
  cases hp : processItems env lat lon (mergedMap env lat lon) with
  | error e => exact ⟨by simp [resultsOf], by simp [resultsOf]⟩
  | ok entries =>
    constructor
    · simp only [resultsOf, assemble]
      apply filterMap_zone_sublist
      intro a z hz
      obtain ⟨hbe, hzz⟩ := bucket_some_eq entries a z hz
      rw [hzz]
    · simp only [resultsOf, assemble, List.all_eq_true]
      intro z hz
      obtain ⟨zt, hzt, hfz⟩ := List.mem_filterMap.mp hz
      obtain ⟨hbe, hzz⟩ := bucket_some_eq entries zt z hfz
      subst hzz
      have hbne : (entries.filter (fun e => decide (e.1 = zt))) ≠ [] := by
        intro hnil
        exact hbe (by rw [hnil]; rfl)
      have hlen : (sortSchools ((entries.filter (fun e => decide (e.1 = zt))).map
          (fun e => e.2))).length = (entries.filter (fun e => decide (e.1 = zt))).length := by
        simp only [sortSchools]
        rw [(stableSort_perm distLE _).length_eq, List.length_map]
      have hsne : (sortSchools ((entries.filter (fun e => decide (e.1 = zt))).map
          (fun e => e.2))).isEmpty = false := by
        rw [List.isEmpty_eq_false]
        intro hnil
        rw [hnil] at hlen
        exact hbne (List.eq_nil_of_length_eq_zero hlen.symm)
      simpa using hsne
